import Mathlib

/-!
Shallow embedding of the Shikhbo backend (main.py, admin.py, admin_routes.py,
database.py) and verification of its specification claims.

The repository contains two parallel FastAPI implementations of the same
endpoints: `main.py` and `admin.py`.  Both are modelled here; definitions are
translated from the source, with the document database and the external
generative-model call abstracted as explicit inputs (an outcome value per
external interaction).  Wall-clock reads are passed in explicitly, one value
per `int(time.time() * 1000)` call site in the source.
-/

namespace Shikhbo

/-- A message document stored under
`users/{uid}/chat_sessions/{sid}/messages` (fields written by both chat
handlers: `text`, `sender`, `timestamp`). -/
structure Msg where
  text : String
  sender : String
  timestamp : Nat
deriving DecidableEq, Repr

/-- Outcome of reading the `book_content/{doc_id}` document: the document
exists and carries `text_content`, exists without that field, is absent, or
the read raises a database error. -/
inductive FetchOutcome where
  | found (text_content : String)
  | missingField
  | absent
  | dbError (msg : String)
deriving DecidableEq, Repr

/-- Outcome of the raw HTTP POST to the Gemini REST endpoint made by
`admin.py call_gemini_raw`: a 200 response with extracted text, a non-200
response, or a raised exception (network failure etc.). -/
inductive GeminiOutcome where
  | success (text : String)
  | httpError (status : Nat) (body : String)
  | exception (msg : String)
deriving DecidableEq, Repr

/-- An HTTP handler result: a 200 JSON body, or a raised `HTTPException`
with a status code and detail string. -/
inductive HttpResult (α : Type) where
  | ok (body : α)
  | error (status : Nat) (detail : String)
deriving DecidableEq, Repr

def HttpResult.map {α β : Type} (f : α → β) : HttpResult α → HttpResult β
  | .ok a => .ok (f a)
  | .error s d => .error s d

/-- admin.py `call_gemini_raw` (lines 92-109): on a 200 response it returns
the first candidate text; on any non-200 response it returns one fixed
string; on any raised exception it returns another fixed string.  It never
raises. -/
def call_gemini_raw : GeminiOutcome → String
  | .success t => t
  | .httpError _ _ => "I am having trouble thinking right now. Please try again."
  | .exception _ => "Sorry, I am having trouble connecting to the internet."

/-- main.py `fetch_book_context` (lines 148-156): returns the document
`text_content` when the document exists (the `.get` default `""` when the
field is missing); returns `""` when the document is absent; the whole body
is wrapped in `try/except`, so a database error is logged and `""` is
returned. -/
def fetch_book_context : FetchOutcome → String
  | .found t => t
  | .missingField => ""
  | .absent => ""
  | .dbError _ => ""

/-- Python string slicing `s[:n]` over code points, as in
`book_context[:10000]` (main.py line 212). -/
def pySlice (s : String) (n : Nat) : String := ⟨s.data.take n⟩

/-- Python truthiness of an `Optional[str]`: `None` and `""` are falsy. -/
def pyTruthy : Option String → Bool
  | none => false
  | some s => s != ""

/-- Python `s.replace(" ", "_")` for the single-character pattern used when
deriving document ids. -/
def pyReplaceSpaces (s : String) : String :=
  ⟨s.data.map (fun c => if c = ' ' then '_' else c)⟩

/-- The `book_content` document id derived by both implementations:
`f"{class_level}_{subject}_{chapter_id}".replace(" ", "_")`
(main.py line 150, admin.py line 374). -/
def book_doc_id (class_level subject chapter_id : String) : String :=
  pyReplaceSpaces (class_level ++ "_" ++ subject ++ "_" ++ chapter_id)

/-- admin.py chat_tutor session-id resolution (lines 343-346): the
caller-supplied id when truthy, otherwise `f"{subject}_{chapter_id}"`. -/
def admin_session_key (session_id : Option String) (subject chapter_id : String) : String :=
  if pyTruthy session_id then session_id.getD "" else subject ++ "_" ++ chapter_id

/-- admin.py get_history target-document resolution (lines 314-319): an
explicit truthy `session_id` wins; else `f"{subject}_{chapter}"` when both
are truthy; else the handler returns empty messages without a lookup
(modelled as `none`). -/
def get_history_target (session_id subject chapter : Option String) : Option String :=
  if pyTruthy session_id then session_id
  else if pyTruthy subject && pyTruthy chapter then
    some (subject.getD "" ++ "_" ++ chapter.getD "")
  else none

/-- Ascending timestamp order on messages (Firestore
`order_by("timestamp")`, and the Python `sorted(..., key=timestamp)`). -/
def tsLe (a b : Msg) : Prop := a.timestamp ≤ b.timestamp

/-- Descending timestamp order on messages (Firestore
`order_by("timestamp", DESCENDING)`). -/
def tsGe (a b : Msg) : Prop := b.timestamp ≤ a.timestamp

instance : DecidableRel tsLe := fun a b => Nat.decLe a.timestamp b.timestamp

instance : DecidableRel tsGe := fun a b => Nat.decLe b.timestamp a.timestamp

instance : IsTotal Msg tsLe := ⟨fun a b => Nat.le_total a.timestamp b.timestamp⟩

instance : IsTrans Msg tsLe := ⟨fun _ _ _ h1 h2 => Nat.le_trans h1 h2⟩

instance : IsTotal Msg tsGe := ⟨fun a b => Nat.le_total b.timestamp a.timestamp⟩

instance : IsTrans Msg tsGe := ⟨fun _ _ _ h1 h2 => Nat.le_trans h2 h1⟩

/-- main.py chat_tutor history query (lines 198-199): fetch the session
messages ordered by timestamp descending with `limit(10)`, then sort the
fetched batch ascending client-side. -/
def main_history (msgs : List Msg) : List Msg :=
  List.insertionSort tsLe ((List.insertionSort tsGe msgs).take 10)

/-- admin.py chat_tutor history query (lines 378-379): fetch the session
messages ordered by timestamp ascending with `limit(10)` — i.e. the ten
oldest messages. -/
def admin_history (msgs : List Msg) : List Msg :=
  (List.insertionSort tsLe msgs).take 10

/-- Request body of main.py `POST /chat` (`ChatRequest`, every field
required). -/
structure MainChatRequest where
  user_id : String
  message : String
  session_id : String
  subject : String
  chapter_id : String
  class_level : String
  group : String
  medium : String
deriving DecidableEq, Repr

/-- External-world inputs of one main.py chat turn: the two clock reads
(line 177 and line 244), the `book_content` read outcome, the session
messages already stored before this turn, the value
`get_system_instruction` produces for this request (a pure function of
class/group/medium/subject whose literal text no claim depends on), and the
SDK `generate_content` outcome (reply text, or the raised exception
message). -/
structure MainChatEnv where
  ts1 : Nat
  ts2 : Nat
  bookFetch : FetchOutcome
  priorMessages : List Msg
  system_instruction : String
  gemini : Except String String
deriving Repr

/-- Observable effects of one main.py chat turn: the user message written,
the retrieval context, the history included in the prompt, the prompt, the
AI message written (`none` when the model call raised, in which case the
handler jumps to its catch-all before the second write), and the JSON
reply. -/
structure MainChatTurn where
  userMsg : Msg
  book_context : String
  history_list : List Msg
  history_text : String
  prompt : String
  aiMsg : Option Msg
  reply : String
deriving DecidableEq, Repr

/-- main.py `chat_tutor` (lines 166-251), with GEMINI_API_KEY present and
all writes succeeding.  The history query runs after the user-message write,
so it sees `priorMessages ++ [userMsg]`.  The session-metadata upsert and
the token-stats increment perform no read that later steps depend on and
are not modelled.  The whole handler body is wrapped in `try/except` that
returns `{"reply": "System Error: " + str(e)}`, so a raised model call
produces a 200 reply embedding the error text. -/
def main_chat (req : MainChatRequest) (env : MainChatEnv) : MainChatTurn :=
  let timestamp := env.ts1
  let userMsg : Msg := { text := req.message, sender := "user", timestamp := timestamp }
  let book_context := fetch_book_context env.bookFetch
  let history_list := main_history (env.priorMessages ++ [userMsg])
  let history_text := String.join (history_list.map (fun msg =>
    (if msg.sender == "user" then "Student" else "Tutor") ++ ": " ++ msg.text ++ "\n"))
  let prompt :=
    "SYSTEM INSTRUCTION: " ++ env.system_instruction ++ "\n" ++
    "REFERENCE MATERIAL: " ++ pySlice book_context 10000 ++ "\n" ++
    "CONVERSATION HISTORY:\n" ++ history_text ++ "\n" ++
    "STUDENT: " ++ req.message ++ "\n" ++
    "TUTOR:"
  { userMsg := userMsg, book_context := book_context, history_list := history_list,
    history_text := history_text, prompt := prompt,
    aiMsg :=
      match env.gemini with
      | .ok ai_reply => some { text := ai_reply, sender := "ai", timestamp := env.ts2 + 1 }
      | .error _ => none,
    reply :=
      match env.gemini with
      | .ok ai_reply => ai_reply
      | .error e => "System Error: " ++ e }

/-- The HTTP result of main.py `POST /chat`: the catch-all `except` turns
every failure into a 200 JSON body, so the endpoint always answers
`{"reply": ...}`. -/
def main_chat_result (req : MainChatRequest) (env : MainChatEnv) : HttpResult String :=
  .ok (main_chat req env).reply

/-- Request body of admin.py `POST /chat` (`ChatRequest`; `session_id` and
`medium` optional, with the source defaults). -/
structure AdminChatRequest where
  user_id : String
  message : String
  class_level : String
  group : String
  subject : String
  chapter_id : String
  session_id : Option String := none
  medium : Option String := some "Bangla Medium"
deriving DecidableEq, Repr

/-- External-world inputs of one admin.py chat turn: the single clock read
(line 351), the `book_content` read outcome, the session messages already
stored before this turn, and the Gemini REST call outcome. -/
structure AdminChatEnv where
  now : Nat
  bookFetch : FetchOutcome
  priorMessages : List Msg
  gemini : GeminiOutcome
deriving DecidableEq, Repr

/-- Observable effects of one successful admin.py chat turn.  `ai_reply` is
also the JSON reply body; `aiMsg` is always written (on a model failure the
apology string itself is persisted). -/
structure AdminChatEffects where
  session_id : String
  userMsg : Msg
  book_context : String
  history_list : List Msg
  history_text : String
  full_prompt : String
  ai_reply : String
  aiMsg : Msg
deriving DecidableEq, Repr

/-- admin.py `chat_tutor` (lines 340-403), with the message writes and the
usage-counter updates succeeding.  The `book_content` read is not guarded
by its own `try`, so a database error there propagates to the handler
`except`, which raises `HTTPException(500, str(e))`.  The history query
runs after the user-message write (ascending, limit 10).  The
`system_instruction` string passed to `call_gemini_raw` is not modelled (no
claim concerns its text); the model-call outcome is `env.gemini`. -/
def admin_chat (req : AdminChatRequest) (env : AdminChatEnv) : HttpResult AdminChatEffects :=
  let session_id := admin_session_key req.session_id req.subject req.chapter_id
  let current_ts := env.now
  let userMsg : Msg := { text := req.message, sender := "user", timestamp := current_ts }
  let finish := fun (book_context : String) =>
    let msgs_list := admin_history (env.priorMessages ++ [userMsg])
    let history_text := String.intercalate "\n" (msgs_list.map (fun m =>
      (if m.sender == "user" then "Student" else "Tutor") ++ ": " ++ m.text))
    let full_prompt :=
      "BOOK CONTEXT:\n" ++ book_context ++ "\nCHAT HISTORY:\n" ++ history_text ++
      "\nSTUDENT QUESTION:\n" ++ req.message
    let ai_reply := call_gemini_raw env.gemini
    HttpResult.ok
      { session_id := session_id, userMsg := userMsg, book_context := book_context,
        history_list := msgs_list, history_text := history_text,
        full_prompt := full_prompt, ai_reply := ai_reply,
        aiMsg := { text := ai_reply, sender := "ai", timestamp := current_ts + 1 } }
  match env.bookFetch with
  | .found t => finish t
  | .missingField => finish ""
  | .absent => finish "No specific book content found. Use general knowledge."
  | .dbError e => .error 500 e

/-- A chapter descriptor within a subject's curriculum list (`Chapter`
model: `id`, `title`, `titleBn`). -/
structure ChapterMeta where
  id : String
  title : String
  titleBn : String
deriving DecidableEq, Repr

/-- admin.py admin_upload_content line 184: the linear scan
`next((index for (index, d) in enumerate(subject_list) if d["id"] == data.chapter_id), None)`
— the first index whose descriptor has the given chapter id. -/
def find_existing_index : List ChapterMeta → String → Option Nat
  | [], _ => none
  | d :: rest, chapter_id =>
    if d.id == chapter_id then some 0
    else (find_existing_index rest chapter_id).map (· + 1)

/-- admin.py admin_upload_content lines 181-197: the curriculum-list
update.  When the chapter id is found, the entry at that index is replaced
by the new descriptor; otherwise the descriptor is appended. -/
def upload_subject_list (subject_list : List ChapterMeta)
    (chapter_id chapter_title chapter_title_bn : String) : List ChapterMeta :=
  let new_chapter_meta : ChapterMeta :=
    { id := chapter_id, title := chapter_title, titleBn := chapter_title_bn }
  match find_existing_index subject_list chapter_id with
  | some existing_index => subject_list.set existing_index new_chapter_meta
  | none => subject_list ++ [new_chapter_meta]

/-- A document in the `users` collection, restricted to the fields the
availability check queries (`where("mobile", "==", _)` /
`where("email", "==", _)`; a document missing the field never matches). -/
structure UserDoc where
  mobile : Option String := none
  email : Option String := none
deriving DecidableEq, Repr

/-- `POST /auth/check-availability` (main.py lines 255-268, admin.py lines
208-221 — identical behaviour when the queries succeed): 409 when some
user document carries the requested mobile, else 409 when some document
carries the requested email, else `{"available": true}`. -/
def check_availability (users : List UserDoc) (mobile email : String) : HttpResult Bool :=
  if users.any (fun u => u.mobile == some mobile) then
    .error 409 "Mobile number already registered"
  else if users.any (fun u => u.email == some email) then
    .error 409 "Email already registered"
  else .ok true

/-- main.py `get_profile` (lines 284-292): when the user document is
missing the handler raises `HTTPException(404, "User not found")` inside
the `try`, but the blanket `except Exception` catches that very exception
and re-raises `HTTPException(500, str(e))`, so the client receives 500 with
detail `"404: User not found"`. -/
def main_get_profile {α : Type} (doc : Option α) : HttpResult α :=
  match doc with
  | some d => .ok d
  | none => .error 500 "404: User not found"

/-- admin.py `get_user_profile` (lines 241-252): its `except` re-raises an
`HTTPException` unchanged (`isinstance` check), so a missing user document
yields the intended 404. -/
def admin_get_user_profile {α : Type} (doc : Option α) : HttpResult α :=
  match doc with
  | some d => .ok d
  | none => .error 404 "User profile not found"

/-- main.py `rename_session` (lines 344-352): the 404 raised for a missing
session document is caught by `except Exception` and replaced by
`HTTPException(500, "Failed to rename")`. -/
def main_rename_session (sessionExists : Bool) : HttpResult String :=
  if sessionExists then .ok "success" else .error 500 "Failed to rename"

/-- admin.py `rename_session` (lines 289-299): same structure, and its
`except` has no HTTPException guard, so the missing-session 404 is
re-raised as `HTTPException(500, str(e))` with detail
`"404: Session not found"`. -/
def admin_rename_session (sessionExists : Bool) : HttpResult String :=
  if sessionExists then .ok "success" else .error 500 "404: Session not found"

/-- A document in `users/{uid}/chat_sessions` as read by the listing
endpoints (every field optional: `to_dict().get` with `None`/default). -/
structure SessionDoc where
  id : String
  subject : Option String := none
  chapter : Option String := none
  custom_title : Option String := none
  title_bn : Option String := none
  class_level : Option String := none
  group : Option String := none
  updated_at : Option Nat := none
deriving DecidableEq, Repr

/-- main.py `get_user_sessions` (lines 305-325): on a successful read the
stream (already ordered by the database, `updated_at` descending) is
projected field-by-field; on any exception the handler returns
`{"sessions": []}` with status 200. -/
def get_user_sessions (read : Except String (List SessionDoc)) : HttpResult (List SessionDoc) :=
  match read with
  | .ok docs => .ok (docs.map (fun doc =>
      { id := doc.id, subject := doc.subject, chapter := doc.chapter,
        custom_title := doc.custom_title, title_bn := doc.title_bn,
        class_level := doc.class_level, group := doc.group,
        updated_at := doc.updated_at }))
  | .error _ => .ok []

/-- The session dict admin.py `get_sessions` builds per document, with the
source defaults applied by `.get`. -/
structure AdminSessionEntry where
  id : String
  subject : String
  chapter : String
  custom_title : Option String
  class_level : String
  group : String
  updated_at : Nat
deriving DecidableEq, Repr

/-- Descending `updated_at` order used by the client-side
`sessions.sort(key=..., reverse=True)`. -/
def updGe (a b : AdminSessionEntry) : Prop := b.updated_at ≤ a.updated_at

instance : DecidableRel updGe := fun a b => Nat.decLe b.updated_at a.updated_at

instance : IsTotal AdminSessionEntry updGe := ⟨fun a b => Nat.le_total b.updated_at a.updated_at⟩

instance : IsTrans AdminSessionEntry updGe := ⟨fun _ _ _ h1 h2 => Nat.le_trans h2 h1⟩

/-- admin.py `get_sessions` (lines 267-287): fetch unordered, project with
defaults, sort client-side by `updated_at` descending (a stable sort,
modelled by insertion sort); on any exception return `{"sessions": []}`. -/
def admin_get_sessions (read : Except String (List SessionDoc)) :
    HttpResult (List AdminSessionEntry) :=
  match read with
  | .ok docs =>
    .ok (List.insertionSort updGe (docs.map (fun d =>
      { id := d.id, subject := d.subject.getD "Unknown",
        chapter := d.chapter.getD "Unknown", custom_title := d.custom_title,
        class_level := d.class_level.getD "", group := d.group.getD "",
        updated_at := d.updated_at.getD 0 })))
  | .error _ => .ok []

/-- The message dict main.py `get_chat_history` builds per document. -/
structure HistoryEntry where
  text : String
  isUser : Bool
  time : Nat
deriving DecidableEq, Repr

/-- main.py `get_chat_history` (lines 327-342): on a successful read the
stream (ordered by timestamp, limit 100 applied by the database) is
projected; on any exception the handler returns `{"messages": []}` with
status 200.  (admin.py `get_history`, lines 311-338, has the same
error behaviour.) -/
def get_chat_history (read : Except String (List Msg)) : HttpResult (List HistoryEntry) :=
  match read with
  | .ok docs => .ok (docs.map (fun d =>
      { text := d.text, isUser := d.sender == "user", time := d.timestamp }))
  | .error _ => .ok []

/-- The `curriculum_metadata` document body: subject name to ordered
chapter list. -/
abbrev Curriculum := List (String × List ChapterMeta)

/-- `GET /curriculum` (main.py lines 294-303, admin.py lines 254-265 —
identical): return the document dict when it exists, `{}` when absent, and
`{}` on any exception, always with status 200. -/
def get_curriculum (read : Except String (Option Curriculum)) : HttpResult Curriculum :=
  match read with
  | .ok (some d) => .ok d
  | .ok none => .ok []
  | .error _ => .ok []

lemma find_existing_index_none {l : List ChapterMeta} {cid : String}
    (h : find_existing_index l cid = none) : ∀ d ∈ l, ¬ (d.id == cid) = true := by
  induction l with
  | nil => simp
  | cons d rest ih =>
    by_cases hd : (d.id == cid) = true
    · simp [find_existing_index, hd] at h
    · rw [find_existing_index, if_neg hd] at h
      intro x hx
      rcases List.mem_cons.mp hx with rfl | hx'
      · exact hd
      · rcases hr : find_existing_index rest cid with _ | j
        · exact ih hr x hx'
        · rw [hr] at h; simp at h

lemma countP_set_of_find {l : List ChapterMeta} {cid : String} {i : Nat}
    (t tb : String) (h : find_existing_index l cid = some i) :
    (l.set i ⟨cid, t, tb⟩).countP (fun d => d.id == cid) =
      l.countP (fun d => d.id == cid) := by
  induction l generalizing i with
  | nil => simp [find_existing_index] at h
  | cons d rest ih =>
    by_cases hd : (d.id == cid) = true
    · rw [find_existing_index, if_pos hd] at h
      obtain rfl : i = 0 := by simpa using h.symm
      simp [List.countP_cons, hd]
    · rw [find_existing_index, if_neg hd] at h
      rcases hr : find_existing_index rest cid with _ | j
      · rw [hr] at h; simp at h
      · rw [hr] at h
        obtain rfl : i = j + 1 := by simpa using h.symm
        simp only [List.set, List.countP_cons]
        rw [ih hr]

/-- C7: admin.py upload-content list update — when the chapter id already
occurs, the first matching entry is replaced in place (no append), the list
length is unchanged, and the number of entries carrying that id is
unchanged; when the id is absent the descriptor is appended, giving exactly
one entry with that id; consequently, whenever the list held at most one
entry with the id beforehand, it holds at most one afterwards.  (The claim
as stated is amended: a pre-existing duplicate pair survives the update, so
"at most one entry afterwards" needs the at-most-one precondition.) -/
theorem C7_upsert (l : List ChapterMeta) (cid t tb : String) :
    (∀ i, find_existing_index l cid = some i →
      (upload_subject_list l cid t tb).length = l.length ∧
      upload_subject_list l cid t tb = l.set i ⟨cid, t, tb⟩ ∧
      (upload_subject_list l cid t tb).countP (fun d => d.id == cid) =
        l.countP (fun d => d.id == cid)) ∧
    (find_existing_index l cid = none →
      upload_subject_list l cid t tb = l ++ [⟨cid, t, tb⟩] ∧
      (upload_subject_list l cid t tb).countP (fun d => d.id == cid) = 1) ∧
    (l.countP (fun d => d.id == cid) ≤ 1 →
      (upload_subject_list l cid t tb).countP (fun d => d.id == cid) ≤ 1) := by
  refine ⟨?_, ?_, ?_⟩
  · intro i h
    rw [upload_subject_list]
    simp only [h]
    exact ⟨List.length_set .., by trivial, countP_set_of_find t tb h⟩
  · intro h
    rw [upload_subject_list]
    simp only [h]
    refine ⟨by trivial, ?_⟩
    have hz : l.countP (fun d => d.id == cid) = 0 :=
      List.countP_eq_zero.mpr (find_existing_index_none h)
    simp [List.countP_append, hz, List.countP_cons]
  · intro hle
    rcases hf : find_existing_index l cid with _ | i
    · rw [upload_subject_list]
      simp only [hf]
      have hz : l.countP (fun d => d.id == cid) = 0 :=
        List.countP_eq_zero.mpr (find_existing_index_none hf)
      simp [List.countP_append, hz, List.countP_cons]
    · rw [upload_subject_list]
      simp only [hf]
      rw [countP_set_of_find t tb hf]
      exact hle

/-- C7 witness: a singleton list with the id present keeps at most one
entry with that id after the update. -/
theorem C7_upsert_witness :
    (upload_subject_list [⟨"c1", "x", "y"⟩] "c1" "t" "tb").countP
      (fun d => d.id == "c1") ≤ 1 :=
  (C7_upsert [⟨"c1", "x", "y"⟩] "c1" "t" "tb").2.2 (by decide)

/-- C7 counterexample: when the subject list already holds two entries with
the same chapter id, the upload replaces only the first match, so the
result still holds two entries with that id — refuting "after the operation
the list contains at most one entry with that chapter id". -/
theorem C7_counterexample :
    upload_subject_list [⟨"c1", "a", "b"⟩, ⟨"c1", "x", "y"⟩] "c1" "t" "tb" =
      [⟨"c1", "t", "tb"⟩, ⟨"c1", "x", "y"⟩] ∧
    (upload_subject_list [⟨"c1", "a", "b"⟩, ⟨"c1", "x", "y"⟩] "c1" "t" "tb").countP
      (fun d => d.id == "c1") = 2 ∧
    ¬ ((upload_subject_list [⟨"c1", "a", "b"⟩, ⟨"c1", "x", "y"⟩] "c1" "t" "tb").countP
      (fun d => d.id == "c1") ≤ 1) := by
  decide

/-- C8: check-availability answers 409 exactly when some user document
already carries the requested mobile number or the requested email, and
`{"available": true}` exactly otherwise. -/
theorem C8_availability (users : List UserDoc) (mobile email : String) :
    ((∃ d, check_availability users mobile email = .error 409 d) ↔
      (∃ u ∈ users, u.mobile = some mobile) ∨ (∃ u ∈ users, u.email = some email)) ∧
    (check_availability users mobile email = .ok true ↔
      ¬ ((∃ u ∈ users, u.mobile = some mobile) ∨ (∃ u ∈ users, u.email = some email))) := by
  rw [check_availability]
  by_cases hm : users.any (fun u => u.mobile == some mobile) = true
  · rw [if_pos hm]
    simp only [List.any_eq_true, beq_iff_eq] at hm
    simp [hm]
  · rw [if_neg hm]
    by_cases he : users.any (fun u => u.email == some email) = true
    · rw [if_pos he]
      simp only [List.any_eq_true, beq_iff_eq] at he
      simp [he]
    · rw [if_neg he]
      simp only [List.any_eq_true, beq_iff_eq] at hm he
      simp [hm, he]

/-- C9: requests for a missing entity do not produce 404 in three of the
four handlers — main.py get_profile and both rename_session handlers raise
the intended 404 inside a `try` whose blanket `except` re-raises it as 500;
only admin.py get_user_profile re-raises the 404 unchanged.  Evaluated at
the failing inputs (missing user document / missing session document). -/
theorem C9_notfound_is_500 :
    main_get_profile (α := Nat) none = .error 500 "404: User not found" ∧
    main_rename_session false = .error 500 "Failed to rename" ∧
    admin_rename_session false = .error 500 "404: Session not found" ∧
    admin_get_user_profile (α := Nat) none = .error 404 "User profile not found" ∧
    ¬ (main_get_profile (α := Nat) none = .error 404 "User not found") ∧
    ¬ (main_rename_session false = .error 404 "Session not found") := by
  refine ⟨rfl, rfl, rfl, rfl, by decide, by decide⟩

/-- C10: the read-only listing endpoints (sessions, history, curriculum, in
both implementations) turn every database error into a 200 response with
the same empty payload a genuinely empty collection produces, and never
answer with an HTTP error status. -/
theorem C10_listing_empty_on_error (e : String) :
    get_user_sessions (.error e) = .ok [] ∧
    get_user_sessions (.error e) = get_user_sessions (.ok []) ∧
    get_chat_history (.error e) = .ok [] ∧
    get_chat_history (.error e) = get_chat_history (.ok []) ∧
    get_curriculum (.error e) = .ok [] ∧
    get_curriculum (.error e) = get_curriculum (.ok none) ∧
    admin_get_sessions (.error e) = .ok [] ∧
    admin_get_sessions (.error e) = admin_get_sessions (.ok []) ∧
    (∀ read, ∃ v, get_user_sessions read = .ok v) ∧
    (∀ read, ∃ v, get_chat_history read = .ok v) ∧
    (∀ read, ∃ v, get_curriculum read = .ok v) ∧
    (∀ read, ∃ v, admin_get_sessions read = .ok v) := by
  refine ⟨rfl, rfl, rfl, rfl, rfl, rfl, rfl, rfl, ?_, ?_, ?_, ?_⟩
  · intro read; cases read with
    | ok docs => exact ⟨_, rfl⟩
    | error e => exact ⟨[], rfl⟩
  · intro read; cases read with
    | ok docs => exact ⟨_, rfl⟩
    | error e => exact ⟨[], rfl⟩
  · intro read; cases read with
    | ok d => cases d with
      | some c => exact ⟨c, rfl⟩
      | none => exact ⟨[], rfl⟩
    | error e => exact ⟨[], rfl⟩
  · intro read; cases read with
    | ok docs => exact ⟨_, rfl⟩
    | error e => exact ⟨[], rfl⟩

/-- C1 amended: when the book-content document exists, the main.py chat
handler embeds `text_content` truncated to 10,000 characters in the prompt
(so that portion never exceeds 10,000 characters), while the admin.py chat
handler embeds the full, untruncated `text_content`. -/
theorem C1_truncation (t : String) (req : MainChatRequest) (env : MainChatEnv)
    (areq : AdminChatRequest) (aenv : AdminChatEnv) :
    (main_chat req { env with bookFetch := .found t }).book_context = t ∧
    (main_chat req { env with bookFetch := .found t }).prompt =
      "SYSTEM INSTRUCTION: " ++ env.system_instruction ++ "\n" ++
      "REFERENCE MATERIAL: " ++ pySlice t 10000 ++ "\n" ++
      "CONVERSATION HISTORY:\n" ++
        (main_chat req { env with bookFetch := .found t }).history_text ++ "\n" ++
      "STUDENT: " ++ req.message ++ "\n" ++
      "TUTOR:" ∧
    (pySlice t 10000).length ≤ 10000 ∧
    ((admin_chat areq { aenv with bookFetch := .found t }).map
      (fun eff => eff.book_context) = .ok t) ∧
    ((admin_chat areq { aenv with bookFetch := .found t }).map
      (fun eff => eff.full_prompt) =
     (admin_chat areq { aenv with bookFetch := .found t }).map
      (fun eff => "BOOK CONTEXT:\n" ++ t ++ "\nCHAT HISTORY:\n" ++ eff.history_text ++
        "\nSTUDENT QUESTION:\n" ++ areq.message)) := by
  refine ⟨rfl, rfl, ?_, rfl, rfl⟩
  have h : (pySlice t 10000).length = (t.data.take 10000).length := rfl
  rw [h]
  exact List.length_take_le 10000 t.data

/-- C1 counterexample: a stored `text_content` of 20,001 characters is
embedded in the admin.py chat prompt in full, so the context portion
exceeds every budget in the 8,000-20,000 character range. -/
theorem C1_counterexample :
    ((admin_chat
        { user_id := "u1", message := "q", class_level := "Class 10", group := "Science",
          subject := "Physics", chapter_id := "ch1" }
        { now := 0, bookFetch := .found ⟨List.replicate 20001 'a'⟩, priorMessages := [],
          gemini := .success "ok" }).map
      (fun eff => eff.book_context) = .ok ⟨List.replicate 20001 'a'⟩) ∧
    ((admin_chat
        { user_id := "u1", message := "q", class_level := "Class 10", group := "Science",
          subject := "Physics", chapter_id := "ch1" }
        { now := 0, bookFetch := .found ⟨List.replicate 20001 'a'⟩, priorMessages := [],
          gemini := .success "ok" }).map
      (fun eff => eff.book_context.length) = .ok 20001) ∧
    ¬ (20001 ≤ 20000) := by
  refine ⟨rfl, ?_, by decide⟩
  show HttpResult.ok (String.length ⟨List.replicate 20001 'a'⟩) = .ok 20001
  have h : String.length ⟨List.replicate 20001 'a'⟩ = (List.replicate 20001 'a').length := rfl
  rw [h, List.length_replicate]

/-- C2 amended: admin.py stamps the AI message with the same captured clock
value plus one, so its timestamp is always exactly one more than the user
message's; main.py stamps the AI message with a fresh clock reading plus
one, which equals the user timestamp plus one exactly when the second
reading returned the same millisecond as the first (and no AI message is
written at all when the model call raised). -/
theorem C2_timestamps (req : MainChatRequest) (env : MainChatEnv)
    (areq : AdminChatRequest) (aenv : AdminChatEnv) :
    ((admin_chat areq aenv).map (fun eff => eff.aiMsg.timestamp) =
      (admin_chat areq aenv).map (fun eff => eff.userMsg.timestamp + 1)) ∧
    ((main_chat req env).aiMsg.map Msg.timestamp =
        some ((main_chat req env).userMsg.timestamp + 1) ↔
      (env.gemini.isOk = true ∧ env.ts2 = env.ts1)) := by
  constructor
  · obtain ⟨now, bf, pm, g⟩ := aenv
    cases bf <;> rfl
  · obtain ⟨t1, t2, bf, pm, si, g⟩ := env
    cases g with
    | ok r =>
      simp only [main_chat, Option.map_some', Option.some.injEq, Except.isOk]
      constructor
      · intro h; exact ⟨rfl, by omega⟩
      · intro ⟨_, h⟩; omega
    | error e =>
      simp [main_chat, Except.isOk, Except.toBool]

/-- C2 counterexample: a main.py chat turn in which the clock advanced five
milliseconds between the two reads persists the AI reply at 1006 while the
user message sits at 1000, so the pair differs by six milliseconds, not
one. -/
theorem C2_counterexample :
    (main_chat
      { user_id := "u1", message := "hello", session_id := "s1", subject := "Physics",
        chapter_id := "ch1", class_level := "Class 10", group := "Science",
        medium := "Bangla Medium" }
      { ts1 := 1000, ts2 := 1005, bookFetch := .absent, priorMessages := [],
        system_instruction := "SYS", gemini := .ok "hi" }).userMsg.timestamp = 1000 ∧
    (main_chat
      { user_id := "u1", message := "hello", session_id := "s1", subject := "Physics",
        chapter_id := "ch1", class_level := "Class 10", group := "Science",
        medium := "Bangla Medium" }
      { ts1 := 1000, ts2 := 1005, bookFetch := .absent, priorMessages := [],
        system_instruction := "SYS", gemini := .ok "hi" }).aiMsg =
      some { text := "hi", sender := "ai", timestamp := 1006 } ∧
    ¬ ((1006 : Nat) = 1000 + 1) := by
  refine ⟨rfl, rfl, by decide⟩

/-- C3 amended: a generative-model failure never surfaces as an HTTP error
in either chat handler; admin.py replies with one of two fixed apology
strings (one for a non-200 response, one for a raised exception) and
persists that apology as the AI message, while main.py catches the raised
SDK exception and replies 200 with "System Error: " followed by the
exception text — a reply that varies with the error rather than a fixed
string. -/
theorem C3_model_failure (req : MainChatRequest) (env : MainChatEnv)
    (areq : AdminChatRequest) (aenv : AdminChatEnv)
    (t e b m : String) (s : Nat) :
    ((admin_chat areq { aenv with bookFetch := .found t, gemini := .httpError s b }).map
      (fun eff => eff.ai_reply) =
      .ok "I am having trouble thinking right now. Please try again.") ∧
    ((admin_chat areq { aenv with bookFetch := .found t, gemini := .exception m }).map
      (fun eff => eff.ai_reply) =
      .ok "Sorry, I am having trouble connecting to the internet.") ∧
    ((admin_chat areq { aenv with bookFetch := .found t, gemini := .exception m }).map
      (fun eff => eff.aiMsg.text) =
      .ok "Sorry, I am having trouble connecting to the internet.") ∧
    main_chat_result req { env with gemini := .error e } =
      .ok ("System Error: " ++ e) := by
  exact ⟨rfl, rfl, rfl, rfl⟩

/-- C3 counterexample: two different model failures make main.py return two
different replies, each distinct from both fixed admin.py apology strings —
so the reply on failure is not a fixed apology placeholder. -/
theorem C3_counterexample :
    main_chat_result
      { user_id := "u1", message := "hello", session_id := "s1", subject := "Physics",
        chapter_id := "ch1", class_level := "Class 10", group := "Science",
        medium := "Bangla Medium" }
      { ts1 := 0, ts2 := 0, bookFetch := .absent, priorMessages := [],
        system_instruction := "SYS", gemini := .error "Connection timed out" } =
      .ok "System Error: Connection timed out" ∧
    main_chat_result
      { user_id := "u1", message := "hello", session_id := "s1", subject := "Physics",
        chapter_id := "ch1", class_level := "Class 10", group := "Science",
        medium := "Bangla Medium" }
      { ts1 := 0, ts2 := 0, bookFetch := .absent, priorMessages := [],
        system_instruction := "SYS", gemini := .error "Connection refused" } =
      .ok "System Error: Connection refused" ∧
    ("System Error: Connection timed out" ≠ "System Error: Connection refused") ∧
    ("System Error: Connection timed out" ≠
      "I am having trouble thinking right now. Please try again.") ∧
    ("System Error: Connection timed out" ≠
      "Sorry, I am having trouble connecting to the internet.") := by
  refine ⟨rfl, rfl, by decide, by decide, by decide⟩

/-- C5 amended: with no matching book-content document, main.py uses the
empty string and admin.py uses the fixed general-knowledge fallback,
verbatim, as retrieval context; a database error during the fetch is
swallowed into the empty string by main.py, but aborts the admin.py chat
request with HTTP 500 rather than being treated as no context. -/
theorem C5_fallback (e : String) (req : MainChatRequest) (env : MainChatEnv)
    (areq : AdminChatRequest) (aenv : AdminChatEnv) :
    fetch_book_context .absent = "" ∧
    fetch_book_context (.dbError e) = "" ∧
    (main_chat req { env with bookFetch := .absent }).book_context = "" ∧
    (main_chat req { env with bookFetch := .dbError e }).book_context = "" ∧
    ((admin_chat areq { aenv with bookFetch := .absent }).map
      (fun eff => eff.book_context) =
      .ok "No specific book content found. Use general knowledge.") ∧
    admin_chat areq { aenv with bookFetch := .dbError e } = .error 500 e := by
  exact ⟨rfl, rfl, rfl, rfl, rfl, rfl⟩

/-- C5 counterexample: a database error during the admin.py context fetch
is not swallowed — the chat request fails with HTTP 500. -/
theorem C5_counterexample :
    admin_chat
      { user_id := "u1", message := "hello", class_level := "Class 10",
        group := "Science", subject := "Physics", chapter_id := "ch1" }
      { now := 0, bookFetch := .dbError "db unavailable", priorMessages := [],
        gemini := .success "ok" } = .error 500 "db unavailable" ∧
    (∀ eff, ¬ (admin_chat
      { user_id := "u1", message := "hello", class_level := "Class 10",
        group := "Science", subject := "Physics", chapter_id := "ch1" }
      { now := 0, bookFetch := .dbError "db unavailable", priorMessages := [],
        gemini := .success "ok" } = .ok eff)) := by
  refine ⟨rfl, ?_⟩
  intro eff h
  simp [admin_chat] at h

/-- C6: the session key of an admin.py chat turn is the caller-supplied
session id when one is supplied (truthy), and otherwise the derived
`subject_chapter` key — so two requests with the same subject and chapter
and no explicit id resolve to the same thread — and get_history given
subject and chapter (and no session id) resolves exactly that derived
key. -/
theorem C6_session_key (s subject chapter_id : String)
    (req : AdminChatRequest) (env : AdminChatEnv) :
    (s ≠ "" → admin_session_key (some s) subject chapter_id = s) ∧
    admin_session_key none subject chapter_id = subject ++ "_" ++ chapter_id ∧
    admin_session_key (some "") subject chapter_id = subject ++ "_" ++ chapter_id ∧
    (subject ≠ "" → chapter_id ≠ "" →
      get_history_target none (some subject) (some chapter_id) =
        some (admin_session_key none subject chapter_id)) ∧
    ((admin_chat req env).map (fun eff => eff.session_id) =
      (admin_chat req env).map (fun _ =>
        admin_session_key req.session_id req.subject req.chapter_id)) := by
  refine ⟨?_, ?_, ?_, ?_, ?_⟩
  · intro h
    simp [admin_session_key, pyTruthy, h]
  · simp [admin_session_key, pyTruthy]
  · simp [admin_session_key, pyTruthy]
  · intro h1 h2
    simp [get_history_target, admin_session_key, pyTruthy, h1, h2]
  · obtain ⟨now, bf, pm, g⟩ := env
    cases bf <;> rfl

/-- C6 witness: a truthy explicit id wins; with no id, history on
subject+chapter resolves the same derived key the chat handler uses. -/
theorem C6_session_key_witness :
    admin_session_key (some "custom") "Physics" "ch1" = "custom" ∧
    get_history_target none (some "Physics") (some "ch1") =
      some (admin_session_key none "Physics" "ch1") := by
  constructor
  · exact (C6_session_key "custom" "Physics" "ch1"
      { user_id := "u", message := "m", class_level := "c", group := "g",
        subject := "s", chapter_id := "ch" }
      { now := 0, bookFetch := .absent, priorMessages := [], gemini := .success "r" }).1
      (by decide)
  · exact (C6_session_key "custom" "Physics" "ch1"
      { user_id := "u", message := "m", class_level := "c", group := "g",
        subject := "s", chapter_id := "ch" }
      { now := 0, bookFetch := .absent, priorMessages := [], gemini := .success "r" }).2.2.2.1
      (by decide) (by decide)

/-- C4 amended: the main.py prompt history is the at-most-10 most recent
session messages in ascending timestamp order (it is sorted ascending, is a
permutation of the first ten of the descending sort, has length
`min 10 n`, and dominates every dropped message by timestamp); the admin.py
prompt history is instead the at-most-10 *oldest* session messages in
ascending order (every kept message is no newer than every dropped one), so
older messages do appear there when the session holds more than ten. -/
theorem C4_history (msgs : List Msg) :
    List.Sorted tsLe (main_history msgs) ∧
    (main_history msgs).Perm ((List.insertionSort tsGe msgs).take 10) ∧
    ((List.insertionSort tsGe msgs).take 10 ++
      (List.insertionSort tsGe msgs).drop 10).Perm msgs ∧
    (main_history msgs).length = min 10 msgs.length ∧
    (∀ x ∈ main_history msgs, ∀ y ∈ (List.insertionSort tsGe msgs).drop 10,
      y.timestamp ≤ x.timestamp) ∧
    List.Sorted tsLe (admin_history msgs) ∧
    admin_history msgs = (List.insertionSort tsLe msgs).take 10 ∧
    (∀ x ∈ admin_history msgs, ∀ y ∈ (List.insertionSort tsLe msgs).drop 10,
      x.timestamp ≤ y.timestamp) := by
  refine ⟨?_, ?_, ?_, ?_, ?_, ?_, rfl, ?_⟩
  · exact List.sorted_insertionSort tsLe ((List.insertionSort tsGe msgs).take 10)
  · exact List.perm_insertionSort tsLe ((List.insertionSort tsGe msgs).take 10)
  · rw [List.take_append_drop]
    exact List.perm_insertionSort tsGe msgs
  · rw [main_history,
      (List.perm_insertionSort tsLe ((List.insertionSort tsGe msgs).take 10)).length_eq,
      List.length_take, (List.perm_insertionSort tsGe msgs).length_eq]
  · intro x hx y hy
    have hx' : x ∈ (List.insertionSort tsGe msgs).take 10 := by
      rw [main_history] at hx
      exact (List.mem_insertionSort tsLe).mp hx
    exact (List.sorted_insertionSort tsGe msgs).rel_of_mem_take_of_mem_drop hx' hy
  · exact List.Pairwise.sublist (List.take_sublist 10 (List.insertionSort tsLe msgs))
      (List.sorted_insertionSort tsLe msgs)
  · intro x hx y hy
    exact (List.sorted_insertionSort tsLe msgs).rel_of_mem_take_of_mem_drop hx hy

/-- C4 witness: in an eleven-message session, every message the main.py
history keeps is at least as recent as the one it drops. -/
theorem C4_history_witness :
    (Msg.mk "x" "user" 0).timestamp ≤ (Msg.mk "x" "user" 1).timestamp :=
  (C4_history [⟨"x", "user", 0⟩, ⟨"x", "user", 1⟩, ⟨"x", "user", 2⟩, ⟨"x", "user", 3⟩,
    ⟨"x", "user", 4⟩, ⟨"x", "user", 5⟩, ⟨"x", "user", 6⟩, ⟨"x", "user", 7⟩,
    ⟨"x", "user", 8⟩, ⟨"x", "user", 9⟩, ⟨"x", "user", 10⟩]).2.2.2.2.1
    (Msg.mk "x" "user" 1) (by decide) (Msg.mk "x" "user" 0) (by decide)

/-- C4 counterexample: an admin.py chat turn on a session already holding
ten messages (timestamps 0-9).  The prompt history is the ten *oldest*
messages: it has length ten, contains the oldest message (timestamp 0),
omits the just-written newest user message (timestamp 100), and every kept
message is strictly older than that omitted one — refuting "no older
message appears when the session holds more than N". -/
theorem C4_counterexample :
    (admin_chat
      { user_id := "u1", message := "newest question", class_level := "Class 10",
        group := "Science", subject := "Physics", chapter_id := "ch1" }
      { now := 100,
        bookFetch := .absent,
        priorMessages := [⟨"m0", "user", 0⟩, ⟨"m1", "ai", 1⟩, ⟨"m2", "user", 2⟩,
          ⟨"m3", "ai", 3⟩, ⟨"m4", "user", 4⟩, ⟨"m5", "ai", 5⟩, ⟨"m6", "user", 6⟩,
          ⟨"m7", "ai", 7⟩, ⟨"m8", "user", 8⟩, ⟨"m9", "ai", 9⟩],
        gemini := .success "ok" }).map
      (fun eff =>
        (eff.history_list.length,
         decide (Msg.mk "m0" "user" 0 ∈ eff.history_list),
         decide (eff.userMsg ∈ eff.history_list),
         eff.history_list.all (fun m => decide (m.timestamp < eff.userMsg.timestamp)),
         eff.userMsg.timestamp)) = .ok (10, true, false, true, 100) := by
  decide

end Shikhbo
